import Mathlib

/-!
Verification development for the ArcLog single-dispatch serializer
(`src/arclog/sd/__init__.py`, `src/arclog/sd/serializers.py`,
`src/arclog/exceptions.py`).

The embedding is shallow: Python runtime values are represented by the
closed inductive type `PValue`, Python classes by the tag type `PyType`
together with an explicit method-resolution-order function `mro`, and every
recognizer/converter of the catalog in `serializers.py` by a `GFunc`
record carrying the function's name, its `typing.get_type_hints` keys, the
type(s) that `functools.singledispatch.register` would key it under, and
its behaviour on `PValue`.

The embedded value universe contains the shapes the verified claims
exercise (None, the builtin scalars and containers, sets / frozensets /
deques, a plain dict subclass, a frozenset subclass carrying a
`__dataclass_fields__` attribute, finite decimals, exception instances,
and opaque objects whose `str`/`repr` may raise).  Catalog entries for
shapes outside this universe (dates, IP addresses, paths, UUIDs, ...) are
kept in the catalog — with their exact names, order, annotations and
`isinstance` predicates restricted to this universe — because the dispatch
claims quantify over the whole catalog; their converter bodies are
unreachable on every embedded value.
-/

/-- Membership of a character in the set stripped by Python's `str.strip()`
(ASCII whitespace; the embedded strings contain no exotic unicode spaces). -/
def isPySpace (c : Char) : Bool :=
  c == ' ' || c == '\t' || c == '\n' || c == '\r' || c == '\x0b' || c == '\x0c'

/-- Python `str.strip()` on the character list: drop whitespace from both ends. -/
def pyStripList (l : List Char) : List Char :=
  ((l.dropWhile isPySpace).reverse.dropWhile isPySpace).reverse

/-- Python `str.strip()`. -/
def pyStrip (s : String) : String := ⟨pyStripList s.data⟩

/-- Python `name.replace('use_', '')`: remove every (non-overlapping,
left-to-right) occurrence of `"use_"`, exactly as `str.replace` does. -/
def pyReplaceUseList : List Char → List Char
  | 'u' :: 's' :: 'e' :: '_' :: rest => pyReplaceUseList rest
  | c :: rest => c :: pyReplaceUseList rest
  | [] => []

/-- Python `name.replace('use_', '')` on `String`. -/
def pyReplaceUse (s : String) : String := ⟨pyReplaceUseList s.data⟩

/-- Python `name.startswith(pre)`. -/
def pyStartswith (s pre : String) : Bool := pre.data.isPrefixOf s.data

/-- Tags for the Python classes that occur in the serializer catalog: every
type used as a `singledispatch` registration key by
`_register_singledispatch`, plus the concrete types of the embedded values
(`NoneType`, a plain `object` subclass, a plain `dict` subclass, a
`frozenset` subclass with a `__dataclass_fields__` attribute, a user
exception class) and the intermediate classes of their MROs. -/
inductive PyType where
  | tType | tInt | tBool | tFloat | tStr | tList | tDict | tTuple
  | tNamedTupleProtocol
  | tSet | tFrozenset | tWeirdSet | tSubDict
  | tBytes
  | tTime | tDate | tDatetime | tTimedelta | tTimezone
  | tEnum | tEnumMeta | tIntEnum | tFlag | tIntFlag
  | tComplex
  | tDeque
  | tBaseException | tException | tUserException
  | tTracebackType
  | tUserString | tUserList | tChainMap | tCounter | tDefaultdict | tOrderedDict
  | tDataclassProtocol
  | tDecimal | tContext | tDecimalTuple
  | tIPv6Address | tIPv6Interface | tIPv6Network
  | tIPv4Address | tIPv4Interface | tIPv4Network
  | tPurePath | tPath | tPosixPath | tWindowsPath | tPathLike
  | tPattern | tMatch
  | tUUID
  | tNone | tPlainObject | tObject
deriving DecidableEq

/-- Method resolution order (`cls.__mro__`) of each embedded class, as used
by `functools.singledispatch` to resolve a registered implementation for a
value's runtime class.  Only the classes that can be the runtime class of
an embedded `PValue` need a faithful MRO; the remaining tags are
registration keys that never appear in any embedded value's MRO. -/
def mro : PyType → List PyType
  | .tBool => [.tBool, .tInt, .tObject]
  | .tInt => [.tInt, .tObject]
  | .tFloat => [.tFloat, .tObject]
  | .tStr => [.tStr, .tObject]
  | .tList => [.tList, .tObject]
  | .tDict => [.tDict, .tObject]
  | .tSubDict => [.tSubDict, .tDict, .tObject]
  | .tTuple => [.tTuple, .tObject]
  | .tSet => [.tSet, .tObject]
  | .tFrozenset => [.tFrozenset, .tObject]
  | .tWeirdSet => [.tWeirdSet, .tFrozenset, .tObject]
  | .tDeque => [.tDeque, .tObject]
  | .tDecimal => [.tDecimal, .tObject]
  | .tUserException => [.tUserException, .tException, .tBaseException, .tObject]
  | .tException => [.tException, .tBaseException, .tObject]
  | .tBaseException => [.tBaseException, .tObject]
  | .tNone => [.tNone, .tObject]
  | .tPlainObject => [.tPlainObject, .tObject]
  | t => [t, .tObject]

/-- The embedded universe of Python runtime values.  Collections carry
their iteration order as a list.  `weirdSet` is an instance of a
`frozenset` subclass whose class carries a `__dataclass_fields__`
attribute (so that both `use_set_default` and `use_dataclass_default`
recognize it, while its class has no direct `singledispatch`
registration).  `exc` is an exception instance: class name, `str(e)`
message, and the optional attached traceback, the latter given as the list
of already-formatted frame strings that `traceback.format_tb` would
return.  `obj` is a plain `object` instance whose `str`/`repr` evaluate to
the given results, `Option.none` meaning the conversion raises. -/
inductive PValue where
  | none
  | int (n : Int)
  | bool (b : Bool)
  | float (q : ℚ)
  | str (s : String)
  | list (xs : List PValue)
  | tuple (xs : List PValue)
  | dict (kvs : List (PValue × PValue))
  | subDict (kvs : List (PValue × PValue))
  | set (xs : List PValue)
  | frozenset (xs : List PValue)
  | weirdSet (xs : List PValue)
  | deque (xs : List PValue)
  | decimal (neg : Bool) (coeff : Nat) (exp : Int)
  | exc (cls : String) (msg : String) (tb : Option (List String))
  | obj (strRes : Option String) (reprRes : Option String)

/-- The runtime class (`type(obj)`) of an embedded value. -/
def typeOf : PValue → PyType
  | .none => .tNone
  | .int _ => .tInt
  | .bool _ => .tBool
  | .float _ => .tFloat
  | .str _ => .tStr
  | .list _ => .tList
  | .tuple _ => .tTuple
  | .dict _ => .tDict
  | .subDict _ => .tSubDict
  | .set _ => .tSet
  | .frozenset _ => .tFrozenset
  | .weirdSet _ => .tWeirdSet
  | .deque _ => .tDeque
  | .decimal _ _ _ => .tDecimal
  | .exc _ _ _ => .tUserException
  | .obj _ _ => .tPlainObject

/-- Python `list(obj)` on the embedded iterable values (the element list in
iteration order); `[]` on non-iterables, which no reachable converter ever
receives. -/
def elemsOf : PValue → List PValue
  | .list xs => xs
  | .tuple xs => xs
  | .set xs => xs
  | .frozenset xs => xs
  | .weirdSet xs => xs
  | .deque xs => xs
  | _ => []

/-- `int(d)` for a finite `decimal.Decimal` with non-negative exponent
`(sign, coeff, exp)`: the exact integer value `±coeff·10^exp`. -/
def decIntVal (neg : Bool) (coeff : Nat) (e : Int) : Int :=
  (if neg then -1 else 1) * (coeff : Int) * (10 : Int) ^ e.toNat

/-- `float(d)` for a finite `decimal.Decimal`, modelled as the exact
rational value `±coeff·10^exp` (the claims verified here depend only on
the result being a floating-point number, not on rounding). -/
def decRatVal (neg : Bool) (coeff : Nat) (e : Int) : ℚ :=
  (if neg then -1 else 1) * (coeff : ℚ) * (10 : ℚ) ^ e

/-- `traceback.format_exception_only`-style final line(s) of
`traceback.format_exception`, joined: `"Cls: msg\n"`, or `"Cls\n"` when
`str(e)` is empty (CPython omits the colon for an empty message). -/
def format_exception_only (cls msg : String) : String :=
  if msg = "" then cls ++ "\n" else cls ++ ": " ++ msg ++ "\n"

/-- `''.join(traceback.format_exception(type(e), e, e.__traceback__))`:
with no attached traceback CPython emits only the final exception line;
with one it prepends the header line and the formatted frames. -/
def format_exception (cls msg : String) (tb : Option (List String)) : String :=
  match tb with
  | Option.none => format_exception_only cls msg
  | Option.some frames =>
      "Traceback (most recent call last):\n" ++ String.join frames
        ++ format_exception_only cls msg

/-- In CPython every `BaseException` instance carries a `__traceback__`
attribute (its value is `None` when none is attached), so the
`hasattr(obj, '__traceback__')` test in `exception_default` is true for
every exception instance. -/
def hasattr_traceback (_ : PValue) : Bool := true

/-- A Python function of the catalog module, as the dispatch machinery sees
it: its `__name__`, the keys of `typing.get_type_hints` on it, the list of
classes that `serialize.register(fn.__annotations__['obj'], fn)` inserts
into the singledispatch registry (each member of a union annotation;
empty for recognizers, which are never registered), and its behaviour —
`test` for use as a recognizer predicate, `run` for use as a converter. -/
structure GFunc where
  name : String
  hints : List String
  regTypes : List PyType
  test : PValue → Bool
  run : PValue → PValue

/-- Every handler in `serializers.py` annotates `obj`, `*args: Any`,
`**kwargs: Any` and the return type, so `get_type_hints` yields these keys. -/
def stdHints : List String := ["obj", "args", "kwargs", "return"]

/-- Build the `GFunc` of a recognizer (`use_*` function): it returns the
boolean classification and is never used as a converter. -/
def mkRecognizer (n : String) (t : PValue → Bool) : GFunc :=
  ⟨n, stdHints, [], t, fun x => .bool (t x)⟩

/-- Build the `GFunc` of a converter: `tys` are the classes its `obj`
annotation registers it under; it is never used as a predicate. -/
def mkConverter (n : String) (tys : List PyType) (f : PValue → PValue) : GFunc :=
  ⟨n, stdHints, tys, fun _ => false, f⟩

/-- `isinstance(obj, type)`: no embedded value is a class. -/
def use_type_default : GFunc := mkRecognizer "use_type_default" (fun _ => false)

/-- `obj.__name__` — unreachable: no embedded value is a class. -/
def type_default : GFunc := mkConverter "type_default" [.tType] (fun x => x)

/-- `isinstance(obj, int | float | bool | str | list | dict | tuple)`;
a plain `dict` subclass instance is an instance of `dict`. -/
def use_builtin_default : GFunc := mkRecognizer "use_builtin_default" fun x =>
  match x with
  | .int _ | .bool _ | .float _ | .str _ | .list _ | .dict _ | .subDict _ | .tuple _ => true
  | _ => false

/-- Returns `obj` unchanged. -/
def builtin_default : GFunc :=
  mkConverter "builtin_default"
    [.tInt, .tFloat, .tBool, .tStr, .tList, .tDict, .tTuple] (fun x => x)

/-- `isinstance(obj, tuple)` plus the three namedtuple attributes: no
embedded tuple carries `_fields`/`_field_defaults`/`_asdict`. -/
def use_namedtuple_default : GFunc := mkRecognizer "use_namedtuple_default" (fun _ => false)

/-- `obj._asdict()` — unreachable on the embedded universe. -/
def namedtuple_default : GFunc :=
  mkConverter "namedtuple_default" [.tNamedTupleProtocol] (fun x => x)

/-- `isinstance(obj, set | frozenset | collections.abc.Set)`: embedded
sets, frozensets, and instances of the frozenset subclass. -/
def use_set_default : GFunc := mkRecognizer "use_set_default" fun x =>
  match x with
  | .set _ | .frozenset _ | .weirdSet _ => true
  | _ => false

/-- `list(obj)`. -/
def set_default : GFunc := mkConverter "set_default" [.tSet] (fun x => .list (elemsOf x))

/-- `isinstance(obj, bytes | bytearray | memoryview)`: no embedded byte values. -/
def use_bytes_default : GFunc := mkRecognizer "use_bytes_default" (fun _ => false)

/-- URL-safe base64 text — unreachable: no embedded byte values. -/
def bytes_default : GFunc := mkConverter "bytes_default" [.tBytes] (fun x => x)

/-- `isinstance(obj, datetime.time)`: no embedded temporal values. -/
def use_datetime_time_default : GFunc :=
  mkRecognizer "use_datetime_time_default" (fun _ => false)

/-- `obj.isoformat()` — unreachable. -/
def datetime_time_default : GFunc := mkConverter "datetime_time_default" [.tTime] (fun x => x)

/-- `isinstance(obj, datetime.date)`: no embedded temporal values. -/
def use_datetime_date_default : GFunc :=
  mkRecognizer "use_datetime_date_default" (fun _ => false)

/-- `obj.isoformat()` — unreachable. -/
def datetime_date_default : GFunc := mkConverter "datetime_date_default" [.tDate] (fun x => x)

/-- `isinstance(obj, datetime.datetime)`: no embedded temporal values. -/
def use_datetime_datetime_default : GFunc :=
  mkRecognizer "use_datetime_datetime_default" (fun _ => false)

/-- `obj.isoformat()` — unreachable. -/
def datetime_datetime_default : GFunc :=
  mkConverter "datetime_datetime_default" [.tDatetime] (fun x => x)

/-- `isinstance(obj, datetime.timedelta)`: no embedded temporal values. -/
def use_datetime_timedelta_default : GFunc :=
  mkRecognizer "use_datetime_timedelta_default" (fun _ => false)

/-- `str(obj.total_seconds())` — unreachable. -/
def datetime_timedelta_default : GFunc :=
  mkConverter "datetime_timedelta_default" [.tTimedelta] (fun x => x)

/-- `isinstance(obj, datetime.timezone)`: no embedded temporal values. -/
def use_datetime_timezone_default : GFunc :=
  mkRecognizer "use_datetime_timezone_default" (fun _ => false)

/-- `obj.tzname(None)` — unreachable. -/
def datetime_timezone_default : GFunc :=
  mkConverter "datetime_timezone_default" [.tTimezone] (fun x => x)

/-- The `use_enum_default` disjunction (`isinstance(obj, Enum | EnumType)`,
enum subclasses, the metaclasses themselves): no embedded value is an enum
member or a class. -/
def use_enum_default : GFunc := mkRecognizer "use_enum_default" (fun _ => false)

/-- `obj.value` — unreachable. -/
def enum_default : GFunc := mkConverter "enum_default" [.tEnum] (fun x => x)

/-- `obj is EnumMeta`: no embedded value is a class. -/
def use_enum_meta_default : GFunc := mkRecognizer "use_enum_meta_default" (fun _ => false)

/-- Member values of the enum class — unreachable. -/
def enum_meta_default : GFunc := mkConverter "enum_meta_default" [.tEnumMeta] (fun x => x)

/-- `obj is EnumType`: no embedded value is a class. -/
def use_enum_type_default : GFunc := mkRecognizer "use_enum_type_default" (fun _ => false)

/-- Member values of the enum class — unreachable.  In CPython
`enum.EnumType` *is* `enum.EnumMeta`, so this registration reuses the key
`tEnumMeta` and (being later) overwrites `enum_meta_default` there. -/
def enum_type_default : GFunc := mkConverter "enum_type_default" [.tEnumMeta] (fun x => x)

/-- `isinstance(obj, enum.IntEnum)`: no embedded enum members. -/
def use_int_enum_default : GFunc := mkRecognizer "use_int_enum_default" (fun _ => false)

/-- `obj.value` — unreachable. -/
def int_enum_default : GFunc := mkConverter "int_enum_default" [.tIntEnum] (fun x => x)

/-- `isinstance(obj, enum.Flag)`: no embedded enum members. -/
def use_flag_default : GFunc := mkRecognizer "use_flag_default" (fun _ => false)

/-- `obj.value` — unreachable. -/
def flag_default : GFunc := mkConverter "flag_default" [.tFlag] (fun x => x)

/-- `isinstance(obj, enum.IntFlag)`: no embedded enum members. -/
def use_int_flag_default : GFunc := mkRecognizer "use_int_flag_default" (fun _ => false)

/-- `obj.value` — unreachable. -/
def int_flag_default : GFunc := mkConverter "int_flag_default" [.tIntFlag] (fun x => x)

/-- `isinstance(obj, complex)`: no embedded complex values (a Python
`float` or `int` is not an instance of `complex`). -/
def use_complex_default : GFunc := mkRecognizer "use_complex_default" (fun _ => false)

/-- `(obj.real, obj.imag)` — unreachable. -/
def complex_default : GFunc := mkConverter "complex_default" [.tComplex] (fun x => x)

/-- `isinstance(obj, collections.deque)`. -/
def use_deque_default : GFunc := mkRecognizer "use_deque_default" fun x =>
  match x with
  | .deque _ => true
  | _ => false

/-- `list(obj)`. -/
def deque_default : GFunc := mkConverter "deque_default" [.tDeque] (fun x => .list (elemsOf x))

/-- `isinstance(obj, BaseException)`. -/
def use_exception_default : GFunc := mkRecognizer "use_exception_default" fun x =>
  match x with
  | .exc _ _ _ => true
  | _ => false

/-- `exception_default`: since `hasattr(obj, '__traceback__')` holds for
every exception instance, the function returns
`''.join(format_exception(type(obj), obj, obj.__traceback__)).strip()`;
the `f'{cls}: {obj}'` branch is unreachable. -/
def exception_default : GFunc := mkConverter "exception_default" [.tBaseException] fun x =>
  match x with
  | .exc cls msg tb =>
      if hasattr_traceback (.exc cls msg tb) then .str (pyStrip (format_exception cls msg tb))
      else .str (cls ++ ": " ++ msg)
  | x => x

/-- `isinstance(obj, types.TracebackType)`: no embedded raw tracebacks. -/
def use_traceback_default : GFunc := mkRecognizer "use_traceback_default" (fun _ => false)

/-- Joined `format_tb` text — unreachable. -/
def traceback_default : GFunc :=
  mkConverter "traceback_default" [.tTracebackType] (fun x => x)

/-- `isinstance(obj, collections.UserString)`: none embedded. -/
def use_userstring_default : GFunc := mkRecognizer "use_userstring_default" (fun _ => false)

/-- `str(obj)` — unreachable. -/
def userstring_default : GFunc := mkConverter "userstring_default" [.tUserString] (fun x => x)

/-- `isinstance(obj, collections.UserList)`: none embedded. -/
def use_userlist_default : GFunc := mkRecognizer "use_userlist_default" (fun _ => false)

/-- `list(obj)` — unreachable. -/
def userlist_default : GFunc := mkConverter "userlist_default" [.tUserList] (fun x => x)

/-- `isinstance(obj, collections.ChainMap)`: none embedded. -/
def use_chainmap_default : GFunc := mkRecognizer "use_chainmap_default" (fun _ => false)

/-- `[dict(m) for m in obj.maps]` — unreachable. -/
def chainmap_default : GFunc := mkConverter "chainmap_default" [.tChainMap] (fun x => x)

/-- `isinstance(obj, collections.Counter)`: the embedded dict subclass is a
plain `dict` subclass, not a `Counter`. -/
def use_counter_default : GFunc := mkRecognizer "use_counter_default" (fun _ => false)

/-- `dict(obj)` — unreachable. -/
def counter_default : GFunc := mkConverter "counter_default" [.tCounter] (fun x => x)

/-- `isinstance(obj, collections.defaultdict)`: none embedded. -/
def use_defaultdict_default : GFunc := mkRecognizer "use_defaultdict_default" (fun _ => false)

/-- `dict(obj)` — unreachable. -/
def defaultdict_default : GFunc :=
  mkConverter "defaultdict_default" [.tDefaultdict] (fun x => x)

/-- `isinstance(obj, collections.OrderedDict)`: none embedded. -/
def use_ordereddict_default : GFunc := mkRecognizer "use_ordereddict_default" (fun _ => false)

/-- `dict(obj)` — unreachable. -/
def ordereddict_default : GFunc :=
  mkConverter "ordereddict_default" [.tOrderedDict] (fun x => x)

/-- `hasattr(obj, '__dataclass_fields__') and not isinstance(obj, type)`:
among embedded values only instances of the `frozenset` subclass carry the
attribute, and no embedded value is a class. -/
def use_dataclass_default : GFunc := mkRecognizer "use_dataclass_default" fun x =>
  match x with
  | .weirdSet _ => true
  | _ => false

/-- `dataclasses.asdict(obj)` — never invoked on an embedded value: the
only values it recognizes are also recognized by the earlier
`use_set_default`. -/
def dataclass_default : GFunc :=
  mkConverter "dataclass_default" [.tDataclassProtocol] (fun x => x)

/-- `isinstance(obj, decimal.Decimal)`. -/
def use_decimal_default : GFunc := mkRecognizer "use_decimal_default" fun x =>
  match x with
  | .decimal _ _ _ => true
  | _ => false

/-- `decimal_default`: `int(obj)` when `obj.as_tuple().exponent` is a
non-negative int, else `float(obj)`.  Embedded decimals are finite, so the
exponent is always an int. -/
def decimal_default : GFunc := mkConverter "decimal_default" [.tDecimal] fun x =>
  match x with
  | .decimal neg coeff e =>
      if 0 ≤ e then .int (decIntVal neg coeff e) else .float (decRatVal neg coeff e)
  | x => x

/-- `isinstance(obj, decimal.Context)`: none embedded. -/
def use_context_default : GFunc := mkRecognizer "use_context_default" (fun _ => false)

/-- Context description mapping — unreachable. -/
def context_default : GFunc := mkConverter "context_default" [.tContext] (fun x => x)

/-- `isinstance(obj, decimal.DecimalTuple)`: embedded tuples are plain. -/
def use_decimal_tuple_default : GFunc :=
  mkRecognizer "use_decimal_tuple_default" (fun _ => false)

/-- DecimalTuple description mapping — unreachable. -/
def decimal_tuple_default : GFunc :=
  mkConverter "decimal_tuple_default" [.tDecimalTuple] (fun x => x)

/-- `isinstance(obj, IPv6Address)`: no embedded network values. -/
def use_ipv6address_default : GFunc := mkRecognizer "use_ipv6address_default" (fun _ => false)

/-- `str(obj)` — unreachable. -/
def ipv6address_default : GFunc :=
  mkConverter "ipv6address_default" [.tIPv6Address] (fun x => x)

/-- `isinstance(obj, IPv6Interface)`: no embedded network values. -/
def use_ipv6interface_default : GFunc :=
  mkRecognizer "use_ipv6interface_default" (fun _ => false)

/-- `str(obj)` — unreachable. -/
def ipv6interface_default : GFunc :=
  mkConverter "ipv6interface_default" [.tIPv6Interface] (fun x => x)

/-- `isinstance(obj, IPv6Network)`: no embedded network values. -/
def use_ipv6network_default : GFunc := mkRecognizer "use_ipv6network_default" (fun _ => false)

/-- `str(obj)` — unreachable. -/
def ipv6network_default : GFunc :=
  mkConverter "ipv6network_default" [.tIPv6Network] (fun x => x)

/-- `isinstance(obj, IPv4Address)`: no embedded network values. -/
def use_ipv4address_default : GFunc := mkRecognizer "use_ipv4address_default" (fun _ => false)

/-- `str(obj)` — unreachable. -/
def ipv4address_default : GFunc :=
  mkConverter "ipv4address_default" [.tIPv4Address] (fun x => x)

/-- `isinstance(obj, IPv4Interface)`: no embedded network values. -/
def use_ipv4interface_default : GFunc :=
  mkRecognizer "use_ipv4interface_default" (fun _ => false)

/-- `str(obj)` — unreachable. -/
def ipv4interface_default : GFunc :=
  mkConverter "ipv4interface_default" [.tIPv4Interface] (fun x => x)

/-- `isinstance(obj, IPv4Network)`: no embedded network values. -/
def use_ipv4network_default : GFunc := mkRecognizer "use_ipv4network_default" (fun _ => false)

/-- `str(obj)` — unreachable. -/
def ipv4network_default : GFunc :=
  mkConverter "ipv4network_default" [.tIPv4Network] (fun x => x)

/-- `isinstance(obj, pathlib.PurePath)`: no embedded path values. -/
def use_purepath_default : GFunc := mkRecognizer "use_purepath_default" (fun _ => false)

/-- `str(obj)` — unreachable. -/
def purepath_default : GFunc := mkConverter "purepath_default" [.tPurePath] (fun x => x)

/-- `isinstance(obj, pathlib.Path)`: no embedded path values. -/
def use_path_default : GFunc := mkRecognizer "use_path_default" (fun _ => false)

/-- `str(obj)` — unreachable. -/
def path_default : GFunc := mkConverter "path_default" [.tPath] (fun x => x)

/-- `isinstance(obj, pathlib.PosixPath)`: no embedded path values. -/
def use_posixpath_default : GFunc := mkRecognizer "use_posixpath_default" (fun _ => false)

/-- `str(obj)` — unreachable. -/
def posixpath_default : GFunc := mkConverter "posixpath_default" [.tPosixPath] (fun x => x)

/-- `isinstance(obj, pathlib.WindowsPath)`: no embedded path values. -/
def use_windowspath_default : GFunc := mkRecognizer "use_windowspath_default" (fun _ => false)

/-- `str(obj)` — unreachable. -/
def windowspath_default : GFunc :=
  mkConverter "windowspath_default" [.tWindowsPath] (fun x => x)

/-- `isinstance(obj, os.PathLike)`: no embedded value defines `__fspath__`. -/
def use_pathlike_default : GFunc := mkRecognizer "use_pathlike_default" (fun _ => false)

/-- `str(obj)` — unreachable. -/
def pathlike_default : GFunc := mkConverter "pathlike_default" [.tPathLike] (fun x => x)

/-- `isinstance(obj, re.Pattern)`: no embedded compiled patterns. -/
def use_pattern_default : GFunc := mkRecognizer "use_pattern_default" (fun _ => false)

/-- `obj.pattern` — unreachable. -/
def pattern_default : GFunc := mkConverter "pattern_default" [.tPattern] (fun x => x)

/-- `isinstance(obj, re.Match)`: no embedded match objects. -/
def use_match_default : GFunc := mkRecognizer "use_match_default" (fun _ => false)

/-- Match description mapping — unreachable. -/
def match_default : GFunc := mkConverter "match_default" [.tMatch] (fun x => x)

/-- `isinstance(obj, uuid.UUID)`: no embedded UUID values. -/
def use_uuid_default : GFunc := mkRecognizer "use_uuid_default" (fun _ => false)

/-- `str(obj)` — unreachable. -/
def uuid_default : GFunc := mkConverter "uuid_default" [.tUUID] (fun x => x)

/-- The function-valued globals of `serializers.py`, in definition order
(the iteration order of `globals()` seen by `_get_typemap`).  Non-function
globals (imported classes, `TYPEMAP`, aliases) are omitted: none of their
names starts with `use_` and no `use_`-name strips to one of them, so they
can neither produce a pair nor be looked up as an encoder. -/
def moduleGlobals : List (String × GFunc) :=
  [("use_type_default", use_type_default), ("type_default", type_default),
   ("use_builtin_default", use_builtin_default), ("builtin_default", builtin_default),
   ("use_namedtuple_default", use_namedtuple_default), ("namedtuple_default", namedtuple_default),
   ("use_set_default", use_set_default), ("set_default", set_default),
   ("use_bytes_default", use_bytes_default), ("bytes_default", bytes_default),
   ("use_datetime_time_default", use_datetime_time_default),
   ("datetime_time_default", datetime_time_default),
   ("use_datetime_date_default", use_datetime_date_default),
   ("datetime_date_default", datetime_date_default),
   ("use_datetime_datetime_default", use_datetime_datetime_default),
   ("datetime_datetime_default", datetime_datetime_default),
   ("use_datetime_timedelta_default", use_datetime_timedelta_default),
   ("datetime_timedelta_default", datetime_timedelta_default),
   ("use_datetime_timezone_default", use_datetime_timezone_default),
   ("datetime_timezone_default", datetime_timezone_default),
   ("use_enum_default", use_enum_default), ("enum_default", enum_default),
   ("use_enum_meta_default", use_enum_meta_default), ("enum_meta_default", enum_meta_default),
   ("use_enum_type_default", use_enum_type_default), ("enum_type_default", enum_type_default),
   ("use_int_enum_default", use_int_enum_default), ("int_enum_default", int_enum_default),
   ("use_flag_default", use_flag_default), ("flag_default", flag_default),
   ("use_int_flag_default", use_int_flag_default), ("int_flag_default", int_flag_default),
   ("use_complex_default", use_complex_default), ("complex_default", complex_default),
   ("use_deque_default", use_deque_default), ("deque_default", deque_default),
   ("use_exception_default", use_exception_default), ("exception_default", exception_default),
   ("use_traceback_default", use_traceback_default), ("traceback_default", traceback_default),
   ("use_userstring_default", use_userstring_default), ("userstring_default", userstring_default),
   ("use_userlist_default", use_userlist_default), ("userlist_default", userlist_default),
   ("use_chainmap_default", use_chainmap_default), ("chainmap_default", chainmap_default),
   ("use_counter_default", use_counter_default), ("counter_default", counter_default),
   ("use_defaultdict_default", use_defaultdict_default),
   ("defaultdict_default", defaultdict_default),
   ("use_ordereddict_default", use_ordereddict_default),
   ("ordereddict_default", ordereddict_default),
   ("use_dataclass_default", use_dataclass_default), ("dataclass_default", dataclass_default),
   ("use_decimal_default", use_decimal_default), ("decimal_default", decimal_default),
   ("use_context_default", use_context_default), ("context_default", context_default),
   ("use_decimal_tuple_default", use_decimal_tuple_default),
   ("decimal_tuple_default", decimal_tuple_default),
   ("use_ipv6address_default", use_ipv6address_default),
   ("ipv6address_default", ipv6address_default),
   ("use_ipv6interface_default", use_ipv6interface_default),
   ("ipv6interface_default", ipv6interface_default),
   ("use_ipv6network_default", use_ipv6network_default),
   ("ipv6network_default", ipv6network_default),
   ("use_ipv4address_default", use_ipv4address_default),
   ("ipv4address_default", ipv4address_default),
   ("use_ipv4interface_default", use_ipv4interface_default),
   ("ipv4interface_default", ipv4interface_default),
   ("use_ipv4network_default", use_ipv4network_default),
   ("ipv4network_default", ipv4network_default),
   ("use_purepath_default", use_purepath_default), ("purepath_default", purepath_default),
   ("use_path_default", use_path_default), ("path_default", path_default),
   ("use_posixpath_default", use_posixpath_default), ("posixpath_default", posixpath_default),
   ("use_windowspath_default", use_windowspath_default),
   ("windowspath_default", windowspath_default),
   ("use_pathlike_default", use_pathlike_default), ("pathlike_default", pathlike_default),
   ("use_pattern_default", use_pattern_default), ("pattern_default", pattern_default),
   ("use_match_default", use_match_default), ("match_default", match_default),
   ("use_uuid_default", use_uuid_default), ("uuid_default", uuid_default)]

/-- `globals().get(name)` restricted to the function-valued globals. -/
def lookupGlobal (g : List (String × GFunc)) (n : String) : Option GFunc :=
  (g.find? (fun p => p.1 == n)).map (fun p => p.2)

/-- The loop body of `_get_typemap`: for each global whose name starts with
`use_`, strip `use_` (via `str.replace`) and pair the recognizer with the
global of the resulting name when it exists.  All entries of the modelled
globals are callable functions, so the `callable(encoder_func)` guard and
the truthiness test collapse to existence of the lookup result.  The
pairs are produced in iteration order, matching insertion order of the
Python dict (all recognizer keys are distinct). -/
def typemapLoop (all : List (String × GFunc)) : List (String × GFunc) → List (GFunc × GFunc)
  | [] => []
  | (name, func) :: rest =>
      if pyStartswith name "use_" then
        match lookupGlobal all (pyReplaceUse name) with
        | Option.some enc => (func, enc) :: typemapLoop all rest
        | Option.none => typemapLoop all rest
      else typemapLoop all rest

/-- `_get_typemap` of `serializers.py` (the `lru_cache` is a memoization
with no observable effect in a pure model). -/
def _get_typemap (g : List (String × GFunc)) : List (GFunc × GFunc) :=
  typemapLoop g g

/-- `TYPEMAP = _get_typemap()`: the recognizer → converter catalog. -/
def TYPEMAP : List (GFunc × GFunc) := _get_typemap moduleGlobals

/-- The name pairs of the catalog, for the naming-convention invariant. -/
def TYPEMAP_names : List (String × String) :=
  TYPEMAP.map (fun p => (p.1.name, p.2.name))

/-- The Python exceptions the dispatch core can raise: the bare
`NotImplementedError` of `serialize` (raised with no arguments, hence an
empty message) and `MissingAnnotationError` from `arclog/exceptions.py`,
identified by the offending function's `__name__`. -/
inductive PyExc where
  | notImplementedError (msg : String)
  | missingAnnot (funcName : String)
deriving DecidableEq

/-- The rendered message of an exception: `MissingAnnotationError.__init__`
builds `"The function '<name>' must have an 'obj' parameter."`. -/
def PyExc.message : PyExc → String
  | .notImplementedError m => m
  | .missingAnnot f => "The function '" ++ f ++ "' must have an 'obj' parameter."

/-- `_validate_type_handler`: fail with `MissingAnnotationError` when
`get_type_hints(fn)` has no `obj` key. -/
def _validate_type_handler (fn : GFunc) : Except PyExc Unit :=
  if "obj" ∈ fn.hints then .ok () else .error (.missingAnnot fn.name)

/-- `_validate_typemap`: validate every pair, converter first then
recognizer, in catalog order.  The `_validation_cache` memoization only
short-circuits repeat validation of an already-validated function and has
no observable effect in a pure model. -/
def _validate_typemap : List (GFunc × GFunc) → Except PyExc Unit
  | [] => .ok ()
  | (k, v) :: rest => do
      _validate_type_handler v
      _validate_type_handler k
      _validate_typemap rest

/-- Insertion into the singledispatch registry dict: a later registration
for the same key overwrites the earlier one. -/
def insertReg (table : List (PyType × GFunc)) (ty : PyType) (f : GFunc) :
    List (PyType × GFunc) :=
  (ty, f) :: table.filter (fun q => q.1 ≠ ty)

/-- The registration loop of `_register_singledispatch`: for each pair,
`serialize.register(v.__annotations__['obj'], v)` inserts the converter
under each class of its annotation (a union annotation registers every
member).  No annotation in the catalog makes `register` raise `TypeError`,
so the `_excepted_handlers` branch is never taken. -/
def registerAll (tm : List (GFunc × GFunc)) : List (PyType × GFunc) :=
  tm.foldl (fun table p => p.2.regTypes.foldl (fun t ty => insertReg t ty p.2) table) []

/-- `_register_singledispatch`: validate the whole catalog first, then
build the direct-dispatch registry; a validation failure aborts before any
registration. -/
def _register_singledispatch (tm : List (GFunc × GFunc)) :
    Except PyExc (List (PyType × GFunc)) := do
  _validate_typemap tm
  pure (registerAll tm)

/-- The singledispatch registry built at import time from `TYPEMAP`
(construction succeeds on the actual catalog). -/
def REGISTRY : List (PyType × GFunc) :=
  match _register_singledispatch TYPEMAP with
  | .ok table => table
  | .error _ => []

/-- `functools.singledispatch` resolution for a runtime class: the first
class along its MRO with a registered implementation.  (The ABC/virtual
subclass cases of `_find_impl` are not exercised by the embedded classes:
none is a virtual subclass of a registered key.) -/
def dispatch (t : PyType) : Option GFunc :=
  (mro t).findSome? (fun s => REGISTRY.lookup s)

/-- `str(obj)`: `Option.none` means the conversion raises.  Only the
`None` and plain-object cases can reach `unknown_default` (every other
embedded value is matched before the fallback); the remaining cases are
given their usual renderings where simple and are never consulted by the
verified claims. -/
def pyStr : PValue → Option String
  | .none => Option.some "None"
  | .obj strRes _ => strRes
  | .int n => Option.some (toString n)
  | .bool b => Option.some (if b then "True" else "False")
  | .str s => Option.some s
  | _ => Option.some ""

/-- `repr(obj)`: `Option.none` means the conversion raises.  Only the
plain-object case is ever consulted (see `pyStr`). -/
def pyRepr : PValue → Option String
  | .obj _ reprRes => reprRes
  | x => pyStr x

/-- `unknown_default`: try `str(obj)`; if that raises, try `repr(obj)`; if
that also raises, return the fixed sentinel. -/
def unknown_default (x : PValue) : String :=
  match pyStr x with
  | Option.some s => s
  | Option.none =>
      match pyRepr x with
      | Option.some s => s
      | Option.none => "__failed_to_encode__"

/-- `serialize(obj, _raise=r)`: singledispatch first resolves a registered
implementation for the value's runtime class and calls it; otherwise the
base implementation scans the `TYPEMAP` recognizers in catalog order and
calls the converter of the first match; otherwise it raises
`NotImplementedError` (bare) when `_raise` is true and falls back to
`unknown_default` when it is false. -/
def serialize (x : PValue) (r : Bool) : Except PyExc PValue :=
  match dispatch (typeOf x) with
  | Option.some conv => .ok (conv.run x)
  | Option.none =>
      match TYPEMAP.find? (fun p => p.1.test x) with
      | Option.some p => .ok (p.2.run x)
      | Option.none =>
          if r then .error (.notImplementedError "") else .ok (.str (unknown_default x))

/-- A catalog pair whose converter lacks the `obj` annotation, used to
exhibit the validation failure of registry construction. -/
def bad_conv : GFunc := ⟨"bad_conv", [], [], fun _ => false, fun x => x⟩

/-- A one-pair catalog containing `bad_conv`. -/
def bad_catalog : List (GFunc × GFunc) :=
  [(mkRecognizer "use_bad_conv" (fun _ => false), bad_conv)]

theorem strData (a b : String) : (a ++ b).data = a.data ++ b.data := rfl

theorem dropWhile_append_allspace (l₁ l₂ : List Char)
    (h : ∀ a ∈ l₁, isPySpace a = true) :
    (l₁ ++ l₂).dropWhile isPySpace = l₂.dropWhile isPySpace := by
  induction l₁ with
  | nil => rfl
  | cons a t ih =>
      rw [List.cons_append, List.dropWhile_cons, h a (List.mem_cons_self a t)]
      simp only [if_true]
      exact ih (fun b hb => h b (List.mem_cons_of_mem a hb))

theorem pyStripList_append_ws (c m : Char) (cs ms ws l : List Char)
    (hl1 : l = c :: cs) (hl2 : l.reverse = m :: ms)
    (hc : isPySpace c = false) (hm : isPySpace m = false)
    (hws : ∀ a ∈ ws, isPySpace a = true) :
    pyStripList (l ++ ws) = l := by
  have h1 : (l ++ ws).dropWhile isPySpace = l ++ ws := by
    rw [hl1, List.cons_append, List.dropWhile_cons, hc]
    simp
  show (((l ++ ws).dropWhile isPySpace).reverse.dropWhile isPySpace).reverse = l
  rw [h1, List.reverse_append, hl2,
      dropWhile_append_allspace _ _ (fun a ha => hws a (List.mem_reverse.mp ha)),
      List.dropWhile_cons, hm]
  simp only [Bool.false_eq_true, if_false]
  rw [← hl2, List.reverse_reverse]

theorem findSome?_first {β : Type} (f : PyType → Option β) (T : PyType) (c : β) :
    ∀ l : List PyType, T ∈ l →
      (∀ S ∈ l.takeWhile (fun s => s != T), f S = Option.none) →
      f T = Option.some c → l.findSome? f = Option.some c := by
  intro l
  induction l with
  | nil => intro h; cases h
  | cons a t ih =>
      intro hmem hpre hfT
      by_cases ha : a = T
      · subst ha
        simp only [List.findSome?, hfT]
      · have hb : (a != T) = true := bne_iff_ne.mpr ha
        have hfa : f a = Option.none := by
          refine hpre a ?_
          rw [List.takeWhile_cons, hb]
          simp
        have hmem' : T ∈ t := by
          rcases List.mem_cons.mp hmem with h | h
          · exact absurd h.symm ha
          · exact h
        have hpre' : ∀ S ∈ t.takeWhile (fun s => s != T), f S = Option.none := by
          intro S hS
          refine hpre S ?_
          rw [List.takeWhile_cons, hb]
          simp only [if_true]
          exact List.mem_cons_of_mem a hS
        simp only [List.findSome?, hfa]
        exact ih hmem' hpre' hfT

theorem validate_err : ∀ tm : List (GFunc × GFunc),
    (∃ pr ∈ tm, "obj" ∉ pr.1.hints ∨ "obj" ∉ pr.2.hints) →
    ∃ f : GFunc, "obj" ∉ f.hints ∧ (∃ pr ∈ tm, f = pr.1 ∨ f = pr.2) ∧
      _validate_typemap tm = .error (.missingAnnot f.name) := by
  intro tm
  induction tm with
  | nil => rintro ⟨pr, h, _⟩; cases h
  | cons hd t ih =>
      obtain ⟨k, v⟩ := hd
      rintro ⟨pr, hmem, hbad⟩
      by_cases hv : "obj" ∈ v.hints
      · by_cases hk : "obj" ∈ k.hints
        · have hmem' : pr ∈ t := by
            rcases List.mem_cons.mp hmem with h | h
            · subst h; rcases hbad with h | h
              · exact absurd hk h
              · exact absurd hv h
            · exact h
          obtain ⟨f, hf1, ⟨pr', hpr', hor⟩, hval⟩ := ih ⟨pr, hmem', hbad⟩
          refine ⟨f, hf1, ⟨pr', List.mem_cons_of_mem _ hpr', hor⟩, ?_⟩
          simp only [_validate_typemap, _validate_type_handler, if_pos hv, if_pos hk]
          exact hval
        · refine ⟨k, hk, ⟨(k, v), List.mem_cons_self _ _, Or.inl rfl⟩, ?_⟩
          simp only [_validate_typemap, _validate_type_handler, if_pos hv, if_neg hk]
          rfl
      · refine ⟨v, hv, ⟨(k, v), List.mem_cons_self _ _, Or.inr rfl⟩, ?_⟩
        simp only [_validate_typemap, _validate_type_handler, if_neg hv]
        rfl

theorem validate_ok : ∀ tm : List (GFunc × GFunc),
    (∀ pr ∈ tm, "obj" ∈ pr.1.hints ∧ "obj" ∈ pr.2.hints) →
    _validate_typemap tm = .ok () := by
  intro tm
  induction tm with
  | nil => intro _; rfl
  | cons hd t ih =>
      intro h
      obtain ⟨k, v⟩ := hd
      have hh := h (k, v) (List.mem_cons_self _ _)
      simp only [_validate_typemap, _validate_type_handler, if_pos hh.1, if_pos hh.2]
      exact ih (fun pr hpr => h pr (List.mem_cons_of_mem _ hpr))

theorem typemapLoop_mem (all : List (String × GFunc)) :
    ∀ (rest : List (String × GFunc)) (p : GFunc × GFunc), p ∈ typemapLoop all rest →
      ∃ name : String, (name, p.1) ∈ rest ∧ pyStartswith name "use_" = true ∧
        lookupGlobal all (pyReplaceUse name) = Option.some p.2 := by
  intro rest
  induction rest with
  | nil => intro p h; exact absurd h (by simp [typemapLoop])
  | cons hd t ih =>
      intro p h
      obtain ⟨name, func⟩ := hd
      simp only [typemapLoop] at h
      split at h
      · rename_i hs
        split at h
        · rename_i enc heq
          rcases List.mem_cons.mp h with h | h
          · subst h
            exact ⟨name, List.mem_cons_self _ _, hs, heq⟩
          · obtain ⟨nm, hmem, hst, hlk⟩ := ih p h
            exact ⟨nm, List.mem_cons_of_mem _ hmem, hst, hlk⟩
        · obtain ⟨nm, hmem, hst, hlk⟩ := ih p h
          exact ⟨nm, List.mem_cons_of_mem _ hmem, hst, hlk⟩
      · obtain ⟨nm, hmem, hst, hlk⟩ := ih p h
        exact ⟨nm, List.mem_cons_of_mem _ hmem, hst, hlk⟩

/-- C1: for every input value `x`, including values whose `str` and `repr`
conversions both raise, `serialize(x, _raise=False)` never raises and
returns a value; when no registered recognizer matches `x` it returns the
fallback conversion `unknown_default(x)`, which yields `str(x)` when that
succeeds, else `repr(x)` when that succeeds, else the fixed sentinel
string `'__failed_to_encode__'`. -/
theorem C1_serialize_total :
    (∀ x : PValue, ∃ v, serialize x false = .ok v) ∧
    (∀ x : PValue, dispatch (typeOf x) = Option.none →
       TYPEMAP.find? (fun p => p.1.test x) = Option.none →
       serialize x false = .ok (.str (unknown_default x))) ∧
    (∀ (x : PValue) (s : String), pyStr x = Option.some s → unknown_default x = s) ∧
    (∀ (x : PValue) (s : String), pyStr x = Option.none → pyRepr x = Option.some s →
       unknown_default x = s) ∧
    (∀ x : PValue, pyStr x = Option.none → pyRepr x = Option.none →
       unknown_default x = "__failed_to_encode__") := by
  refine ⟨?_, ?_, ?_, ?_, ?_⟩
  · intro x
    unfold serialize
    cases h1 : dispatch (typeOf x) with
    | some conv => exact ⟨conv.run x, rfl⟩
    | none =>
        cases h2 : TYPEMAP.find? (fun p => p.1.test x) with
        | some p => exact ⟨p.2.run x, rfl⟩
        | none => exact ⟨.str (unknown_default x), rfl⟩
  · intro x h1 h2
    unfold serialize
    rw [h1, h2]
    rfl
  · intro x s hs
    unfold unknown_default
    rw [hs]
  · intro x s hs hr
    unfold unknown_default
    rw [hs, hr]
  · intro x hs hr
    unfold unknown_default
    rw [hs, hr]

/-- C1 witness: a plain object whose `str` and `repr` both raise is
serialized (with `_raise=False`) to the sentinel string. -/
theorem C1_witness :
    serialize (.obj Option.none Option.none) false = .ok (.str "__failed_to_encode__") :=
  C1_serialize_total.2.1 (.obj Option.none Option.none) rfl rfl

/-- C2 counterexample: `serialize(None, _raise=True)` raises the bare
`NotImplementedError` whose message is empty; in particular the failure
does not name the unhandled value's runtime type (`NoneType`), contrary to
the claim. -/
theorem C2_counterexample :
    serialize PValue.none true = .error (.notImplementedError "") ∧
    (PyExc.notImplementedError "").message = "" ∧
    ¬ ("NoneType".data <:+: ("" : String).data) :=
  ⟨rfl, rfl, by decide⟩

/-- C2 (amended): `serialize(x, _raise=True)` fails — with a bare
`NotImplementedError` carrying no message, hence not naming the value's
runtime type — if and only if no recognizer matches `x`: neither a
singledispatch registration resolved for `x`'s runtime class nor any
recognizer of the fallback catalog. -/
theorem C2_unsupported_iff (x : PValue) :
    serialize x true = .error (.notImplementedError "") ↔
      (dispatch (typeOf x) = Option.none ∧ ∀ q ∈ TYPEMAP, q.1.test x = false) := by
  constructor
  · intro h
    unfold serialize at h
    cases h1 : dispatch (typeOf x) with
    | some conv => rw [h1] at h; cases h
    | none =>
        refine ⟨rfl, ?_⟩
        cases h2 : TYPEMAP.find? (fun p => p.1.test x) with
        | some p => rw [h1, h2] at h; cases h
        | none =>
            intro q hq
            have := List.find?_eq_none.mp h2 q hq
            simpa using this
  · rintro ⟨h1, hall⟩
    have h2 : TYPEMAP.find? (fun p => p.1.test x) = Option.none :=
      List.find?_eq_none.mpr (fun q hq => by rw [hall q hq]; simp)
    unfold serialize
    rw [h1, h2]
    rfl

/-- C3: for every registered class `T` with converter `C` resolved for the
runtime class of `x` — `x`'s class itself or a superclass along its MRO
with no more specific registration — `serialize(x)` returns exactly
`C(x)`. -/
theorem C3_direct_dispatch (x : PValue) (T : PyType) (C : GFunc) (r : Bool)
    (hmem : T ∈ mro (typeOf x))
    (hreg : REGISTRY.lookup T = Option.some C)
    (hspec : ∀ S ∈ (mro (typeOf x)).takeWhile (fun s => s != T),
       REGISTRY.lookup S = Option.none) :
    serialize x r = .ok (C.run x) := by
  have hd : dispatch (typeOf x) = Option.some C :=
    findSome?_first _ T C (mro (typeOf x)) hmem hspec hreg
  unfold serialize
  rw [hd]

/-- C3 witness: an instance of a plain `dict` subclass has no registration
for its own class, so dispatch resolves the `dict` entry of the direct
table and returns `builtin_default` of the value, i.e. the value itself. -/
theorem C3_witness :
    serialize (.subDict [(.str "a", .int 1)]) true = .ok (.subDict [(.str "a", .int 1)]) :=
  C3_direct_dispatch (.subDict [(.str "a", .int 1)]) .tDict builtin_default true
    (by decide) rfl
    (by
      intro S hS
      have hS' : S ∈ [PyType.tSubDict] := hS
      rcases List.mem_singleton.mp hS' with rfl
      rfl)

/-- C4: for every value with no direct-table match, the base
implementation scans the catalog in registration order and `serialize`
returns the converter output paired with the first recognizer that
returns true (so later matching entries are never consulted). -/
theorem C4_first_match (x : PValue) (p : GFunc × GFunc) (r : Bool)
    (hdisp : dispatch (typeOf x) = Option.none)
    (hfind : TYPEMAP.find? (fun q => q.1.test x) = Option.some p) :
    serialize x r = .ok (p.2.run x) := by
  unfold serialize
  rw [hdisp, hfind]

/-- C4 witness: an instance of a `frozenset` subclass carrying
`__dataclass_fields__` matches two catalog recognizers
(`use_set_default` and `use_dataclass_default`) and has no direct-table
match; `serialize` returns the output of `set_default`, the converter of
the first match. -/
theorem C4_witness :
    serialize (.weirdSet [.int 1]) true = .ok (.list [.int 1]) ∧
    TYPEMAP.countP (fun q => q.1.test (.weirdSet [.int 1])) = 2 :=
  ⟨C4_first_match (.weirdSet [.int 1]) (use_set_default, set_default) true rfl rfl,
   by decide⟩

/-- C5: registry construction validates the whole catalog before building
the dispatch table.  If any recognizer or converter lacks a declared type
for its `obj` parameter, construction aborts with the
missing-annotation error naming that function (and whose rendered message
names it); when every pair is valid, construction succeeds, as it does on
the actual catalog (`TYPEMAP`), producing `REGISTRY`. -/
theorem C5_validation :
    (∀ tm : List (GFunc × GFunc),
      (∃ pr ∈ tm, "obj" ∉ pr.1.hints ∨ "obj" ∉ pr.2.hints) →
      ∃ f : GFunc, "obj" ∉ f.hints ∧ (∃ pr ∈ tm, f = pr.1 ∨ f = pr.2) ∧
        _register_singledispatch tm = .error (.missingAnnot f.name) ∧
        (PyExc.missingAnnot f.name).message =
          "The function '" ++ f.name ++ "' must have an 'obj' parameter.") ∧
    (∀ tm : List (GFunc × GFunc),
      (∀ pr ∈ tm, "obj" ∈ pr.1.hints ∧ "obj" ∈ pr.2.hints) →
      _register_singledispatch tm = .ok (registerAll tm)) ∧
    _register_singledispatch TYPEMAP = .ok REGISTRY := by
  refine ⟨?_, ?_, rfl⟩
  · intro tm hbad
    obtain ⟨f, hf1, hf2, hval⟩ := validate_err tm hbad
    refine ⟨f, hf1, hf2, ?_, rfl⟩
    unfold _register_singledispatch
    rw [hval]
    rfl
  · intro tm hok
    unfold _register_singledispatch
    rw [validate_ok tm hok]
    rfl

/-- C5 witness: a catalog containing a converter with no type hints at all
makes registry construction fail with the missing-annotation error naming
that converter. -/
theorem C5_witness :
    ∃ f : GFunc, "obj" ∉ f.hints ∧ (∃ pr ∈ bad_catalog, f = pr.1 ∨ f = pr.2) ∧
      _register_singledispatch bad_catalog = .error (.missingAnnot f.name) ∧
      (PyExc.missingAnnot f.name).message =
        "The function '" ++ f.name ++ "' must have an 'obj' parameter." :=
  C5_validation.1 bad_catalog
    ⟨(mkRecognizer "use_bad_conv" (fun _ => false), bad_conv),
     List.mem_cons_self _ _, Or.inr (by decide)⟩

/-- C6 counterexample: a user exception with empty message and no attached
traceback serializes to `"ValueError"` — not to the exact string
`"ValueError: "` that the claim's `"<ClassName>: <message>"` format
demands (CPython's `format_exception` omits the colon for an empty
message, and the result is whitespace-stripped). -/
theorem C6_counterexample :
    serialize (.exc "ValueError" "" Option.none) true = .ok (.str "ValueError") ∧
    ("ValueError" : String) ≠ "ValueError: " :=
  ⟨rfl, by decide⟩

/-- Two strings with the same character data are equal. -/
theorem strEq_of_data (a b : String) (h : a.data = b.data) : a = b := by
  cases a
  cases b
  cases h
  rfl

/-- C6 (amended): for an exception whose class name starts with a
non-space character and whose message is non-empty and ends with a
non-space character, `serialize` without a traceback returns exactly
`"<ClassName>: <message>"`; with an attached traceback it returns the
non-empty formatted traceback string — header line, formatted frames,
then the exception line — which contains both the class name and the
message; and with an empty message and no traceback it returns just
`"<ClassName>"`.  (The code strips surrounding whitespace from the
formatted text, which is what forces the stated character conditions.) -/
theorem C6_exception_format (cls msg : String) (r : Bool)
    (c : Char) (cs : List Char) (hcls : cls.data = c :: cs) (hc : isPySpace c = false)
    (m : Char) (ms : List Char) (hmsg : msg.data.reverse = m :: ms)
    (hm : isPySpace m = false) :
    (serialize (.exc cls msg Option.none) r = .ok (.str (cls ++ ": " ++ msg))) ∧
    (∀ frames : List String,
      serialize (.exc cls msg (Option.some frames)) r =
        .ok (.str ("Traceback (most recent call last):\n" ++ String.join frames
          ++ cls ++ ": " ++ msg)) ∧
      ("Traceback (most recent call last):\n" ++ String.join frames
          ++ cls ++ ": " ++ msg) ≠ "" ∧
      cls.data <:+: ("Traceback (most recent call last):\n" ++ String.join frames
          ++ cls ++ ": " ++ msg).data ∧
      msg.data <:+: ("Traceback (most recent call last):\n" ++ String.join frames
          ++ cls ++ ": " ++ msg).data) ∧
    (∀ (d : Char) (ds : List Char), cls.data.reverse = d :: ds → isPySpace d = false →
      serialize (.exc cls "" Option.none) r = .ok (.str cls)) := by
  have hmsgne : msg ≠ "" := by
    intro he
    subst he
    simp at hmsg
  have hwsNl : ∀ a ∈ ("\n" : String).data, isPySpace a = true := by
    intro a ha
    have ha' : a ∈ ['\n'] := ha
    rcases List.mem_singleton.mp ha' with rfl
    rfl
  refine ⟨?_, ?_, ?_⟩
  · have hser : serialize (.exc cls msg Option.none) r
        = .ok (.str (pyStrip (format_exception cls msg Option.none))) := rfl
    rw [hser]
    have hfmt : format_exception cls msg Option.none = (cls ++ ": " ++ msg) ++ "\n" := by
      unfold format_exception format_exception_only
      rw [if_neg hmsgne]
    rw [hfmt]
    refine congrArg (fun t => Except.ok (PValue.str t)) ?_
    refine strEq_of_data _ _ ?_
    show pyStripList ((cls ++ ": " ++ msg).data ++ ("\n" : String).data)
        = (cls ++ ": " ++ msg).data
    have hl1 : (cls ++ ": " ++ msg).data
        = c :: ((cs ++ (": " : String).data) ++ msg.data) := by
      show (cls.data ++ (": " : String).data) ++ msg.data = _
      rw [hcls, List.cons_append, List.cons_append]
    have hl2 : (cls ++ ": " ++ msg).data.reverse
        = m :: (ms ++ (cls.data ++ (": " : String).data).reverse) := by
      show ((cls.data ++ (": " : String).data) ++ msg.data).reverse = _
      rw [List.reverse_append, hmsg, List.cons_append]
    exact pyStripList_append_ws c m _ _ _ _ hl1 hl2 hc hm hwsNl
  · intro frames
    have hser : serialize (.exc cls msg (Option.some frames)) r
        = .ok (.str (pyStrip (format_exception cls msg (Option.some frames)))) := rfl
    have hfmt : format_exception cls msg (Option.some frames)
        = ("Traceback (most recent call last):\n" ++ String.join frames
            ++ cls ++ ": " ++ msg) ++ "\n" := by
      unfold format_exception format_exception_only
      rw [if_neg hmsgne]
      refine strEq_of_data _ _ ?_
      simp [strData, List.append_assoc]
    have hdata : ("Traceback (most recent call last):\n" ++ String.join frames
        ++ cls ++ ": " ++ msg).data
        = 'T' :: ((((("raceback (most recent call last):\n" : String).data
            ++ (String.join frames).data) ++ cls.data) ++ (": " : String).data)
            ++ msg.data) := rfl
    have hl2 : ("Traceback (most recent call last):\n" ++ String.join frames
        ++ cls ++ ": " ++ msg).data.reverse
        = m :: (ms ++ ("Traceback (most recent call last):\n" ++ String.join frames
            ++ cls ++ ": ").data.reverse) := by
      show (("Traceback (most recent call last):\n" ++ String.join frames
          ++ cls ++ ": ").data ++ msg.data).reverse = _
      rw [List.reverse_append, hmsg, List.cons_append]
    have key : pyStripList (("Traceback (most recent call last):\n" ++ String.join frames
        ++ cls ++ ": " ++ msg).data ++ ("\n" : String).data)
        = ("Traceback (most recent call last):\n" ++ String.join frames
            ++ cls ++ ": " ++ msg).data :=
      pyStripList_append_ws 'T' m _ _ _ _ hdata hl2 rfl hm hwsNl
    refine ⟨?_, ?_, ?_, ?_⟩
    · rw [hser, hfmt]
      refine congrArg (fun t => Except.ok (PValue.str t)) ?_
      refine strEq_of_data _ _ ?_
      exact key
    · intro he
      have h0 : ("Traceback (most recent call last):\n" ++ String.join frames
          ++ cls ++ ": " ++ msg).data = [] := congrArg String.data he
      rw [hdata] at h0
      exact List.cons_ne_nil _ _ h0
    · refine ⟨("Traceback (most recent call last):\n" ++ String.join frames).data,
        (": " : String).data ++ msg.data, ?_⟩
      simp [strData, List.append_assoc]
    · refine ⟨("Traceback (most recent call last):\n" ++ String.join frames
        ++ cls ++ ": ").data, [], ?_⟩
      simp [strData, List.append_assoc]
  · intro d ds hd hdns
    have hser : serialize (.exc cls "" Option.none) r
        = .ok (.str (pyStrip (format_exception cls "" Option.none))) := rfl
    rw [hser]
    have hfmt : format_exception cls "" Option.none = cls ++ "\n" := by
      unfold format_exception format_exception_only
      rw [if_pos rfl]
    rw [hfmt]
    refine congrArg (fun t => Except.ok (PValue.str t)) ?_
    refine strEq_of_data _ _ ?_
    show pyStripList (cls.data ++ ("\n" : String).data) = cls.data
    exact pyStripList_append_ws c d cs ds _ _ hcls hd hc hdns hwsNl

/-- C6 witness: concrete exception values, with and without an attached
traceback, serialized to their exact formatted strings. -/
theorem C6_witness :
    serialize (.exc "ValueError" "boom" Option.none) true
      = .ok (.str "ValueError: boom") ∧
    serialize (.exc "ValueError" "boom" (Option.some ["  File f, line 1, in g\n"])) true
      = .ok (.str ("Traceback (most recent call last):\n"
          ++ "  File f, line 1, in g\n" ++ "ValueError: boom")) := by
  have h := C6_exception_format "ValueError" "boom" true 'V' "alueError".data rfl rfl
    'm' "oob".data rfl rfl
  refine ⟨h.1, ?_⟩
  have h2 := (h.2.1 ["  File f, line 1, in g\n"]).1
  exact h2

/-- C7: a decimal value whose exponent (scale) is non-negative — an exact
integer — serializes to an integer; a decimal with negative exponent
(fractional) serializes to a floating-point number. -/
theorem C7_decimal_branches (neg : Bool) (coeff : Nat) (e : Int) (r : Bool) :
    (0 ≤ e → serialize (.decimal neg coeff e) r = .ok (.int (decIntVal neg coeff e))) ∧
    (e < 0 → serialize (.decimal neg coeff e) r = .ok (.float (decRatVal neg coeff e))) := by
  have hser : serialize (.decimal neg coeff e) r
      = .ok (if 0 ≤ e then .int (decIntVal neg coeff e)
             else .float (decRatVal neg coeff e)) := rfl
  constructor
  · intro h
    rw [hser, if_pos h]
  · intro h
    rw [hser, if_neg (not_le.mpr h)]

/-- C7 witness: `Decimal` with coefficient 15 and exponent 1 (the value
150) serializes to the integer 150; coefficient 3 and exponent -1 (the
value 0.3) serializes to a floating-point number. -/
theorem C7_witness :
    serialize (.decimal false 15 1) true = .ok (.int 150) ∧
    serialize (.decimal false 3 (-1)) true = .ok (.float (decRatVal false 3 (-1)))
      ∧ decRatVal false 3 (-1) = 3 / 10 := by
  refine ⟨?_, ?_, by norm_num [decRatVal]⟩
  · have h := (C7_decimal_branches false 15 1 true).1 (by norm_num)
    simpa [decIntVal] using h
  · exact (C7_decimal_branches false 3 (-1) true).2 (by norm_num)

/-- C8: container converters preserve element count, element identity and
iteration order and do not reduce nested elements: serializing a set, a
frozenset or a deque yields exactly the list of its elements, unchanged;
in particular a set of three integers yields the 3-element list of
exactly those integers. -/
theorem C8_containers :
    (∀ (xs : List PValue) (r : Bool), serialize (.set xs) r = .ok (.list xs)) ∧
    (∀ (xs : List PValue) (r : Bool), serialize (.frozenset xs) r = .ok (.list xs)) ∧
    (∀ (xs : List PValue) (r : Bool), serialize (.deque xs) r = .ok (.list xs)) ∧
    serialize (.set [.int 1, .int 2, .int 3]) true
      = .ok (.list [.int 1, .int 2, .int 3]) :=
  ⟨fun _ _ => rfl, fun _ _ => rfl, fun _ _ => rfl, rfl⟩

/-- C9: `None` is not recognized by any catalog recognizer (the builtin
recognizer accepts int, float, bool, str, list, dict and tuple values but
not `None`) and has no direct-table registration, so
`serialize(None, _raise=True)` raises the unsupported-type error
(`NotImplementedError`) and `serialize(None, _raise=False)` returns the
fallback string `"None"`. -/
theorem C9_none_unrecognized :
    use_builtin_default.test PValue.none = false ∧
    use_builtin_default.test (.int 0) = true ∧
    use_builtin_default.test (.float 0) = true ∧
    use_builtin_default.test (.bool true) = true ∧
    use_builtin_default.test (.str "") = true ∧
    use_builtin_default.test (.list []) = true ∧
    use_builtin_default.test (.dict []) = true ∧
    use_builtin_default.test (.tuple []) = true ∧
    TYPEMAP.all (fun q => !(q.1.test PValue.none)) = true ∧
    dispatch (typeOf PValue.none) = Option.none ∧
    serialize PValue.none true = .error (.notImplementedError "") ∧
    serialize PValue.none false = .ok (.str "None") :=
  ⟨rfl, rfl, rfl, rfl, rfl, rfl, rfl, rfl, by decide, rfl, rfl, rfl⟩

/-- C10: the type-handlers map is built by the naming convention: every
pair's recognizer is named `use_` followed by its converter's name, each
recognizer appears exactly once, and — for any globals catalog — every
pair of the map arises from a `use_`-prefixed global whose stripped name
looks up to the paired converter, so a recognizer whose stripped name has
no converter in the module yields no pair. -/
theorem C10_naming_convention :
    (∀ q ∈ TYPEMAP_names, q.1 = "use_" ++ q.2) ∧
    (TYPEMAP_names.map Prod.fst).Nodup ∧
    (∀ (g : List (String × GFunc)) (p : GFunc × GFunc), p ∈ _get_typemap g →
      ∃ name : String, (name, p.1) ∈ g ∧ pyStartswith name "use_" = true ∧
        lookupGlobal g (pyReplaceUse name) = Option.some p.2) := by
  refine ⟨by decide, by decide, ?_⟩
  intro g p h
  exact typemapLoop_mem g g p h

/-- C10 witness: the first catalog entry pairs `use_type_default` with
`type_default`, and the naming convention holds for it. -/
theorem C10_witness :
    ("use_type_default", "type_default") ∈ TYPEMAP_names ∧
    ("use_type_default" : String) = "use_" ++ "type_default" :=
  ⟨by decide, C10_naming_convention.1 ("use_type_default", "type_default") (by decide)⟩

/-- C2 witness: instantiating the unsupported-type characterization at
`None`, whose serialization with `_raise=True` fails: no direct-table
entry resolves for `NoneType` and no catalog recognizer accepts `None`. -/
theorem C2_witness :
    dispatch (typeOf PValue.none) = Option.none ∧
    ∀ q ∈ TYPEMAP, q.1.test PValue.none = false :=
  (C2_unsupported_iff PValue.none).mp rfl
